import Mathlib

/-!
Shallow embedding of `src/package.py` from the digitized_av_packaging
repository (class `Packager`), together with theorems checking the
natural-language specification against it.

Python strings are modelled as Lean `String`s (helpers below mirror the
exact Python primitives the source uses: `str.split`, `str.strip`,
`pathlib.Path` joining, `Path.suffix`, `Path.name`, `str.startswith`,
`Path.glob`).  Filesystem and remote-storage state is modelled explicitly
as lists of paths / object keys; fallible external calls are driven by
boolean oracles and return `Except`.
-/

namespace DigitizedAvPackaging

/-- Python `str.split` with a one-character separator: the empty string
splits to one empty component, and a separator at either edge or a doubled
separator contributes an empty component. -/
def splitOnChar (c : Char) (cs : List Char) : List (List Char) :=
  match cs with
  | [] => [[]]
  | x :: xs =>
    let r := splitOnChar c xs
    if x == c then [] :: r
    else
      match r with
      | [] => [[x]]
      | h :: t => (x :: h) :: t

/-- Python `str.isspace`-style whitespace test used by `str.strip()`. -/
def isPySpace (c : Char) : Bool :=
  c == ' ' || c == '\t' || c == '\n' || c == '\r' || c == '\x0b' || c == '\x0c'

/-- Python `str.strip()`: drop leading and trailing whitespace. -/
def trimChars (cs : List Char) : List Char :=
  ((cs.dropWhile isPySpace).reverse.dropWhile isPySpace).reverse

/-- `Packager.__init__`, line 24 of `package.py`:
`self.rights_ids = [r.strip() for r in rights_ids.split(',')]`. -/
def rights_ids_of (rights_ids : String) : List String :=
  (splitOnChar ',' rights_ids.data).map (fun cs => String.mk (trimChars cs))

/-- `str(pathlib.Path(a, b))` for a relative, non-dot `a` and relative `b`:
plain slash joining.  Used for `bag_dir = Path(self.tmp_dir, self.refid)`. -/
def pathJoin (a b : String) : String := a ++ "/" ++ b

/-- Last path component, i.e. Python `pathlib.Path(p).name`. -/
def pathNameChars (p : List Char) : List Char :=
  (splitOnChar '/' p).getLastD []

/-- Python `pathlib.Path(p).name` on strings. -/
def pathName (p : String) : String := String.mk (pathNameChars p.data)

/-- Index of the last occurrence of `c` in `cs` (Python `str.rfind`). -/
def lastIdxOf (c : Char) (cs : List Char) : Option Nat :=
  match cs with
  | [] => none
  | x :: xs =>
    match lastIdxOf c xs with
    | some i => some (i + 1)
    | none => if x == c then some 0 else none

/-- Python `pathlib.Path(p).suffix`: the final dotted extension of the last
path component, or the empty string when the last dot is leading or
trailing. -/
def pySuffix (p : String) : String :=
  let name := pathNameChars p.data
  match lastIdxOf '.' name with
  | some i => if 0 < i ∧ i + 1 < name.length then String.mk (name.drop i) else ""
  | none => ""

/-- Python `str.startswith` (also used to model S3 key-prefix listing). -/
def pyStartswith (s pre : String) : Bool := pre.data.isPrefixOf s.data

/-- `Packager.parse_format` (lines 100-111): audio for exactly two files
one of which has suffix `.mp3`, video for exactly three files one of
which has suffix `.mp4`, otherwise an exception. -/
def parse_format (file_list : List String) : Except String String :=
  if file_list.length == 2 && file_list.any (fun f => pySuffix f == ".mp3") then
    .ok "audio"
  else if file_list.length == 3 && file_list.any (fun f => pySuffix f == ".mp4") then
    .ok "video"
  else
    .error "Unrecognized package format for files."

/-- `uri_from_refid` (line 167): the ArchivesSpace find-by-id URL, scoped to
the configured repository, with the interpolated lookup key. -/
def find_by_refid_url (as_repo key : String) : String :=
  "repositories/" ++ as_repo ++ "/find_by_id/archival_objects?ref_id[]=" ++ key

/-- A record of the catalog response's `archival_objects` array; the code
reads only its `ref` field. -/
structure ArchivalObject where
  ref : String
deriving DecidableEq, Repr

/-- `uri_from_refid` result logic (lines 168-173): exactly one match returns
its `ref`; any other count raises. -/
def uri_from_refid (archival_objects : List ArchivalObject) : Except String String :=
  match archival_objects with
  | [obj] => .ok obj.ref
  | objs =>
    .error (toString objs.length ++ " results found for search. Expected one result.")

/-- `create_bag` (line 214) calls `self.uri_from_refid(bag_dir)` with
`bag_dir = Path(self.tmp_dir, self.refid)`: the URL actually queried during
bag assembly interpolates the working-directory path. -/
def create_bag_query (as_repo tmp_dir refid : String) : String :=
  find_by_refid_url as_repo (pathJoin tmp_dir refid)

/-! ### Date normalization (`format_aspace_date`, lines 175-205) -/

/-- Gregorian leap year, as used by `dateutil`. -/
def isLeap (y : Nat) : Bool := (y % 4 == 0 && y % 100 != 0) || y % 400 == 0

/-- Number of days in a month (Gregorian calendar). -/
def daysInMonth (y m : Nat) : Nat :=
  if m = 2 then (if isLeap y then 29 else 28)
  else if m = 4 ∨ m = 6 ∨ m = 9 ∨ m = 11 then 30
  else 31

/-- Parse a (nonempty) all-digit character run as a natural number. -/
def digitsToNat (cs : List Char) : Option Nat :=
  if cs.isEmpty then none
  else if cs.all Char.isDigit then
    some (cs.foldl (fun a c => a * 10 + (c.toNat - 48)) 0)
  else none

/-- `dateutil.parser.isoparse` restricted to the shapes the spec admits for
date bounds (`YYYY`, `YYYY-MM`, `YYYY-MM-DD`): a bare year parses to
January 1, a year-month to the 1st of the month, a full date to itself;
anything malformed or out of range raises (modelled as `none`). -/
def isoparse (s : String) : Option (Nat × Nat × Nat) :=
  match splitOnChar '-' s.data with
  | [y] =>
    if y.length = 4 then (digitsToNat y).map (fun yn => (yn, 1, 1)) else none
  | [y, m] =>
    if y.length = 4 ∧ m.length = 2 then
      match digitsToNat y, digitsToNat m with
      | some yn, some mn => if 1 ≤ mn ∧ mn ≤ 12 then some (yn, mn, 1) else none
      | _, _ => none
    else none
  | [y, m, d] =>
    if y.length = 4 ∧ m.length = 2 ∧ d.length = 2 then
      match digitsToNat y, digitsToNat m, digitsToNat d with
      | some yn, some mn, some dn =>
        if 1 ≤ mn ∧ mn ≤ 12 ∧ 1 ≤ dn ∧ dn ≤ daysInMonth yn mn then
          some (yn, mn, dn)
        else none
      | _, _, _ => none
    else none
  | _ => none

/-- Zero-pad a number to two digits (`strftime` `%m` / `%d`). -/
def pad2 (n : Nat) : String := if n < 10 then "0" ++ toString n else toString n

/-- Zero-pad a number to four digits (`strftime` `%Y` for years < 10000). -/
def pad4 (n : Nat) : String :=
  if n < 10 then "000" ++ toString n
  else if n < 100 then "00" ++ toString n
  else if n < 1000 then "0" ++ toString n
  else toString n

/-- `datetime.strftime` with the year-month-day format `%Y-%m-%d`. -/
def strftimeYMD (d : Nat × Nat × Nat) : String :=
  pad4 d.1 ++ "-" ++ pad2 d.2.1 ++ "-" ++ pad2 d.2.2

/-- `dateutil.relativedelta.relativedelta(month=12, day=31)` applied to a
date: absolute replacement of month and day, the day clamped to the last
valid day of the resulting month. -/
def relativedeltaMonthDay (dt : Nat × Nat × Nat) (month day : Nat) : Nat × Nat × Nat :=
  (dt.1, month, min day (daysInMonth dt.1 month))

/-- `dateutil.relativedelta.relativedelta(day=31)` applied to a date:
absolute replacement of the day, clamped to the last valid day of the
month. -/
def relativedeltaDay (dt : Nat × Nat × Nat) (day : Nat) : Nat × Nat × Nat :=
  (dt.1, dt.2.1, min day (daysInMonth dt.1 dt.2.1))

/-- The ArchivesSpace date JSON as the code reads it: `date_type`, `begin`,
and (for non-single records) `end`. -/
structure AspaceDate where
  date_type : String
  begin : String
  endDate : Option String
deriving DecidableEq, Repr

/-- `Packager.format_aspace_date` (lines 175-205): for a `single` record the
begin value is reused as the end value; both bounds are `isoparse`d, the
begin is reformatted `%Y-%m-%d`, and the end is pushed to Dec 31 for a
bare year (length 4), to the last day of the month for a year-month
(length 7), and left as the raw string otherwise. -/
def format_aspace_date (dates : AspaceDate) : Except String (String × String) :=
  let begin_date := dates.begin
  let end_dateO : Option String :=
    if dates.date_type = "single" then some begin_date else dates.endDate
  match end_dateO with
  | none => .error "KeyError: end"
  | some end_date =>
    match isoparse begin_date, isoparse end_date with
    | some parsed_begin, some parsed_end =>
      let formatted_begin := strftimeYMD parsed_begin
      let formatted_end :=
        if end_date.length = 4 then
          strftimeYMD (relativedeltaMonthDay parsed_end 12 31)
        else if end_date.length = 7 then
          strftimeYMD (relativedeltaDay parsed_end 31)
        else end_date
      .ok (formatted_begin, formatted_end)
    | _, _ => .error "isoparse: invalid date string"

/-! ### Configuration, derivative map, filesystem and pipeline state -/

/-- The constructor arguments of `Packager` that the modelled operations
read (lines 20-32). -/
structure Config where
  refid : String
  tmp_dir : String
  source_bucket : String
  destination_bucket : String
  destination_bucket_video_mezzanine : String
  destination_bucket_video_access : String
  destination_bucket_audio_access : String
  destination_bucket_poster : String
deriving DecidableEq, Repr

/-- `Packager.derivative_map` (lines 130-150): triples of local path,
destination bucket and content type; three entries for video (mezzanine,
access, poster), one for audio. -/
def derivative_map (cfg : Config) (format : String) : List (String × String × String) :=
  let bag_path := pathJoin cfg.tmp_dir cfg.refid
  if format = "video" then
    [(bag_path ++ "/" ++ cfg.refid ++ "_me.mov",
      cfg.destination_bucket_video_mezzanine, "video/quicktime"),
     (bag_path ++ "/" ++ cfg.refid ++ "_a.mp4",
      cfg.destination_bucket_video_access, "video/mp4"),
     (bag_path ++ "/poster.png", cfg.destination_bucket_poster, "image/x-png")]
  else
    [(bag_path ++ "/" ++ cfg.refid ++ "_a.mp3",
      cfg.destination_bucket_audio_access, "audio/mpeg")]

/-- Local filesystem state: the directories and regular files that exist. -/
structure FS where
  dirs : List String
  files : List String
deriving DecidableEq, Repr

/-- `shutil.rmtree(dir)`: remove the directory and everything under it. -/
def removeTree (fs : FS) (dir : String) : FS :=
  { dirs := fs.dirs.filter (fun d => !(d == dir || pyStartswith d (dir ++ "/"))),
    files := fs.files.filter (fun f => !(pyStartswith f (dir ++ "/"))) }

/-- `pathlib.Path(base).glob(pat ++ "/*")`: the files lying directly inside
directory `base/relDir` (results carry the base prefix, as `Path.glob`
returns paths rooted at the base path). -/
def globChildren (files : List String) (base relDir : String) : List String :=
  let pre := (base ++ "/" ++ relDir ++ "/").data
  files.filter (fun f =>
    pre.isPrefixOf f.data &&
    !(f.data.drop pre.length).isEmpty &&
    !(f.data.drop pre.length).contains '/')

/-- `Packager.download_files` (lines 78-98): create `bag_dir` if absent,
list the source objects whose key starts with the refid (an empty listing
raises `KeyError` on the Contents field), download each key to
`tmp_dir/<key>`, and return `Path(tmp_dir).glob(f"{bag_dir}/*")`.  The
error carries the filesystem as of the raise. -/
def download_files (source_objs : List String) (fs : FS) (tmp_dir refid : String) :
    Except (String × FS) (FS × List String) :=
  let bag_dir := pathJoin tmp_dir refid
  let fs1 := if fs.dirs.contains bag_dir then fs else { fs with dirs := bag_dir :: fs.dirs }
  let to_download := source_objs.filter (fun k => pyStartswith k refid)
  if to_download.isEmpty then .error ("KeyError: Contents", fs1)
  else
    let fs2 := { fs1 with files := fs1.files ++ to_download.map (fun k => tmp_dir ++ "/" ++ k) }
    let file_list := globChildren fs2.files tmp_dir bag_dir
    .ok (fs2, file_list)

/-- The result of a successful `compress_bag`: the filesystem afterwards,
the archive path returned, and the archive's root entry name (`arcname`). -/
structure CompressResult where
  fs : FS
  compressed_path : String
  arc_root : String
deriving DecidableEq, Repr

/-- `Packager.compress_bag` (lines 227-241): open `f"{bag_dir}.tar.gz"` for
writing, add `bag_dir` under `arcname = Path(bag_dir).name`, then
`rmtree(bag_dir)`.  `tarOk` is the oracle for the external archive write;
when it fails the exception propagates before `rmtree`, leaving the
directory in place (and the partially-written archive file behind). -/
def compress_bag (tarOk : Bool) (fs : FS) (bag_dir : String) :
    Except (String × FS) CompressResult :=
  let compressed_path := bag_dir ++ ".tar.gz"
  let fs1 := { fs with files := compressed_path :: fs.files }
  if tarOk then
    .ok { fs := removeTree fs1 bag_dir,
          compressed_path := compressed_path,
          arc_root := pathName bag_dir }
  else
    .error ("tarfile write error", fs1)

/-- `Packager.cleanup_failed_job` (lines 268-277): `rmtree(bag_dir)` only if
it is a directory, then `Path(f"{bag_dir}.tar.gz").unlink(missing_ok=True)`. -/
def cleanup_failed_job (fs : FS) (bag_dir : String) : FS :=
  let fs1 := if fs.dirs.contains bag_dir then removeTree fs bag_dir else fs
  { fs1 with files := fs1.files.filter (fun f => !(f == bag_dir ++ ".tar.gz")) }

/-- One published SNS notification, with the message attributes the code
sets. -/
structure Notification where
  outcome : String
  formatAttr : String
  refidAttr : String
  message : Option String
deriving DecidableEq, Repr

/-- `Packager.deliver_failure_notification` (lines 304-335): formatting the
message reads `self.format`; if the failure happened before
`parse_format` ran, that attribute was never assigned and the f-string
raises `AttributeError`, so nothing is published.  Otherwise one
notification with `outcome = FAILURE` and `message = str(exception)` is
published. -/
def deliver_failure_notification (format : Option String) (refid errMsg : String)
    (notifs : List Notification) : Except String (List Notification) :=
  match format with
  | none => .error "AttributeError: Packager object has no attribute format"
  | some f =>
    .ok (notifs ++ [{ outcome := "FAILURE", formatAttr := f, refidAttr := refid,
                      message := some errMsg }])

/-- `Packager.deliver_success_notification` (lines 279-302). -/
def deliver_success_notification (format : Option String) (refid : String)
    (notifs : List Notification) : Except String (List Notification) :=
  match format with
  | none => .error "AttributeError: Packager object has no attribute format"
  | some f =>
    .ok (notifs ++ [{ outcome := "SUCCESS", formatAttr := f, refidAttr := refid,
                      message := none }])

/-! ### The orchestrator (`run`, lines 56-76) -/

/-- Observable state of one invocation: the local filesystem, the remote
source objects, the notifications published so far, and the Python
attribute `self.format` (unset until `parse_format` has run). -/
structure PackagerState where
  fs : FS
  sourceObjs : List String
  notifications : List Notification
  format : Option String
deriving DecidableEq, Repr

/-- Success/failure oracles for the pipeline stages that call external
systems whose outcome is not determined by the modelled state. -/
structure RunEnv where
  posterOk : Bool
  derivativesOk : Bool
  bagOk : Bool
  tarOk : Bool
  deliverOk : Bool
  cleanupRemoteOk : Bool
deriving DecidableEq, Repr

/-- One oracle-driven pipeline stage: apply its state effect on success,
raise carrying the untouched state on failure. -/
def stage (ok : Bool) (name : String) (st : PackagerState)
    (f : PackagerState → PackagerState) : Except (String × PackagerState) PackagerState :=
  if ok then .ok (f st) else .error (name, st)

/-- `deliver_derivatives` state effect (lines 152-163): each derivative
file is uploaded and then unlinked locally. -/
def unlinkDerivatives (cfg : Config) (fmt : String) (s : PackagerState) : PackagerState :=
  let paths := (derivative_map cfg fmt).map (fun t => t.1)
  { s with fs := { s.fs with files := s.fs.files.filter (fun f => !(paths.contains f)) } }

/-- `deliver_package` state effect (lines 243-256): the archive is uploaded
and then unlinked locally. -/
def unlinkPackage (compressed_path : String) (s : PackagerState) : PackagerState :=
  { s with fs := { s.fs with files := s.fs.files.filter (fun f => !(f == compressed_path)) } }

/-- `cleanup_successful_job` state effect (lines 258-266): delete every
source object whose key has the refid as prefix. -/
def purgeSourceObjects (refid : String) (s : PackagerState) : PackagerState :=
  { s with sourceObjs := s.sourceObjs.filter (fun k => !(pyStartswith k refid)) }

/-- The body of `run`'s `try` block (lines 61-72): download, classify
(assigning `self.format`), poster, derivative delivery, bag, compress,
package delivery, remote-source cleanup, success notification.  The first
exception aborts the rest, carrying the state at the raise. -/
def run_pipeline (env : RunEnv) (cfg : Config) (st0 : PackagerState) :
    Except (String × PackagerState) PackagerState :=
  let bag_dir := pathJoin cfg.tmp_dir cfg.refid
  match download_files st0.sourceObjs st0.fs cfg.tmp_dir cfg.refid with
  | .error (e, fsE) => .error (e, { st0 with fs := fsE })
  | .ok (fs1, downloaded) =>
    let st1 := { st0 with fs := fs1 }
    match parse_format downloaded with
    | .error e => .error (e, st1)
    | .ok fmt =>
      let st2 := { st1 with format := some fmt }
      (stage env.posterOk "poster creation error" st2 id).bind fun st3 =>
      (stage env.derivativesOk "derivative delivery error" st3
          (unlinkDerivatives cfg fmt)).bind fun st4 =>
      (stage env.bagOk "bag creation error" st4 id).bind fun st5 =>
      match compress_bag env.tarOk st5.fs bag_dir with
      | .error (e, fsE) => .error (e, { st5 with fs := fsE })
      | .ok r =>
        let st6 := { st5 with fs := r.fs }
        (stage env.deliverOk "package delivery error" st6
            (unlinkPackage r.compressed_path)).bind fun st7 =>
        (stage env.cleanupRemoteOk "source cleanup error" st7
            (purgeSourceObjects cfg.refid)).bind fun st8 =>
        match deliver_success_notification st8.format cfg.refid st8.notifications with
        | .error e => .error (e, st8)
        | .ok ns => .ok { st8 with notifications := ns }

/-- `Packager.run` (lines 56-76): run the pipeline; on any exception run
`cleanup_failed_job(bag_dir)` then `deliver_failure_notification(e)`.
The first component is the exception escaping `run` itself, if any (the
`except` block has no handler of its own). -/
def run (env : RunEnv) (cfg : Config) (st0 : PackagerState) :
    Option String × PackagerState :=
  let bag_dir := pathJoin cfg.tmp_dir cfg.refid
  match run_pipeline env cfg st0 with
  | .ok st => (none, st)
  | .error (e, stF) =>
    let stC := { stF with fs := cleanup_failed_job stF.fs bag_dir }
    match deliver_failure_notification stC.format cfg.refid e stC.notifications with
    | .ok ns => (none, { stC with notifications := ns })
    | .error attrErr => (some attrErr, stC)

/-! ## Helper lemmas -/

/-- Every month has at most 31 days. -/
theorem daysInMonth_le_31 (y m : Nat) : daysInMonth y m ≤ 31 := by
  unfold daysInMonth
  split
  · split <;> omega
  · split <;> omega

/-- December has 31 days. -/
theorem daysInMonth_dec (y : Nat) : daysInMonth y 12 = 31 := by
  simp [daysInMonth]

/-- `isPrefixOf` cancels a common leading run. -/
theorem isPrefixOf_append_cancel (a b c : List Char) :
    (a ++ b).isPrefixOf (a ++ c) = b.isPrefixOf c := by
  induction a with
  | nil => rfl
  | cons x xs ih => simp [List.isPrefixOf, ih]

/-- The compressed archive path `b ++ ".tar.gz"` never lies under the
directory `b` itself, so `rmtree(b)` leaves it alone. -/
theorem pyStartswith_tar_never (b : String) :
    pyStartswith (b ++ ".tar.gz") (b ++ "/") = false := by
  unfold pyStartswith
  rw [String.data_append, String.data_append]
  rw [isPrefixOf_append_cancel]
  decide

/-! ## Claim theorems -/

/-- C10: the constructor stores the comma-separated components of the
rights-identifiers string with surrounding whitespace stripped from each
component, so " 1, 2 " and "1,2" both yield ["1", "2"]. -/
theorem rights_ids_strip_spec :
    rights_ids_of " 1, 2 " = ["1", "2"] ∧ rights_ids_of "1,2" = ["1", "2"] ∧
    rights_ids_of " 1, 2 " = rights_ids_of "1,2" := by
  decide

/-- C5: classification of a staged file set returns audio exactly for
two-file sets containing an `.mp3`, video exactly for three-file sets
containing an `.mp4`, and raises on every other count/extension
combination. -/
theorem parse_format_spec (fl : List String) :
    (parse_format fl = .ok "audio" ↔ fl.length = 2 ∧ ∃ f ∈ fl, pySuffix f = ".mp3") ∧
    (parse_format fl = .ok "video" ↔ fl.length = 3 ∧ ∃ f ∈ fl, pySuffix f = ".mp4") ∧
    (¬(fl.length = 2 ∧ ∃ f ∈ fl, pySuffix f = ".mp3") →
      ¬(fl.length = 3 ∧ ∃ f ∈ fl, pySuffix f = ".mp4") →
      parse_format fl = .error "Unrecognized package format for files.") := by
  have h2 : ((fl.length == 2 && fl.any fun f => pySuffix f == ".mp3") = true) ↔
      (fl.length = 2 ∧ ∃ f ∈ fl, pySuffix f = ".mp3") := by
    simp [List.any_eq_true]
  have h3 : ((fl.length == 3 && fl.any fun f => pySuffix f == ".mp4") = true) ↔
      (fl.length = 3 ∧ ∃ f ∈ fl, pySuffix f = ".mp4") := by
    simp [List.any_eq_true]
  by_cases hA : fl.length = 2 ∧ ∃ f ∈ fl, pySuffix f = ".mp3"
  · have hpf : parse_format fl = .ok "audio" := by
      unfold parse_format
      rw [if_pos (h2.mpr hA)]
    refine ⟨iff_of_true hpf hA, iff_of_false ?_ ?_, fun hn _ => absurd hA hn⟩
    · rw [hpf]; simp
    · rintro ⟨hl3, -⟩
      exact absurd (hA.1 ▸ hl3) (by decide)
  · by_cases hB : fl.length = 3 ∧ ∃ f ∈ fl, pySuffix f = ".mp4"
    · have hpf : parse_format fl = .ok "video" := by
        unfold parse_format
        rw [if_neg (fun hc => hA (h2.mp hc)), if_pos (h3.mpr hB)]
      exact ⟨iff_of_false (by rw [hpf]; simp) hA, iff_of_true hpf hB,
        fun _ hn => absurd hB hn⟩
    · have hpf : parse_format fl = .error "Unrecognized package format for files." := by
        unfold parse_format
        rw [if_neg (fun hc => hA (h2.mp hc)), if_neg (fun hc => hB (h3.mp hc))]
      exact ⟨iff_of_false (by rw [hpf]; simp) hA, iff_of_false (by rw [hpf]; simp) hB,
        fun _ _ => hpf⟩

/-- Witness for C5: a two-file audio set classifies as audio, a three-file
video set as video, and an unrecognized pair raises. -/
theorem parse_format_spec_witness :
    parse_format ["x_ma.wav", "x_a.mp3"] = .ok "audio" ∧
    parse_format ["x_ma.mkv", "x_me.mov", "x_a.mp4"] = .ok "video" ∧
    parse_format ["x_ma.tif", "x_a.jpg"] = .error "Unrecognized package format for files." :=
  ⟨(parse_format_spec ["x_ma.wav", "x_a.mp3"]).1.mpr ⟨rfl, "x_a.mp3", by decide, by decide⟩,
   (parse_format_spec ["x_ma.mkv", "x_me.mov", "x_a.mp4"]).2.1.mpr
     ⟨rfl, "x_a.mp4", by decide, by decide⟩,
   (parse_format_spec ["x_ma.tif", "x_a.jpg"]).2.2 (by decide) (by decide)⟩

/-- C7: the catalog find-by-id lookup returns the single match's URI exactly
when the response holds exactly one archival object; zero or multiple
matches raise. -/
theorem uri_from_refid_spec :
    (∀ obj : ArchivalObject, uri_from_refid [obj] = .ok obj.ref) ∧
    (∀ (objs : List ArchivalObject) (u : String), uri_from_refid objs = .ok u →
      ∃ obj, objs = [obj] ∧ obj.ref = u) ∧
    (∀ objs : List ArchivalObject, objs.length ≠ 1 →
      ∃ e, uri_from_refid objs = .error e) := by
  refine ⟨fun obj => rfl, ?_, ?_⟩
  · intro objs u h
    match objs with
    | [] => exact absurd h (by simp [uri_from_refid])
    | [obj] => exact ⟨obj, rfl, by simpa [uri_from_refid] using h⟩
    | o1 :: o2 :: t => exact absurd h (by simp [uri_from_refid])
  · intro objs h
    match objs with
    | [] => exact ⟨_, rfl⟩
    | [obj] => exact absurd (rfl : ([obj] : List ArchivalObject).length = 1) h
    | o1 :: o2 :: t => exact ⟨_, rfl⟩

/-- Witness for C7: a singleton response succeeds with its URI and an empty
response raises. -/
theorem uri_from_refid_spec_witness :
    uri_from_refid [⟨"/repositories/2/archival_objects/929951"⟩] =
      .ok "/repositories/2/archival_objects/929951" ∧
    ∃ e, uri_from_refid ([] : List ArchivalObject) = .error e :=
  ⟨uri_from_refid_spec.1 ⟨"/repositories/2/archival_objects/929951"⟩,
   uri_from_refid_spec.2.2 [] (by decide)⟩

/-- C9: the derivative map has exactly one descriptor for audio and exactly
three for video, the video descriptors in the fixed order mezzanine,
access, poster. -/
theorem derivative_map_spec (cfg : Config) :
    (derivative_map cfg "audio").length = 1 ∧
    derivative_map cfg "video" =
      [(pathJoin cfg.tmp_dir cfg.refid ++ "/" ++ cfg.refid ++ "_me.mov",
        cfg.destination_bucket_video_mezzanine, "video/quicktime"),
       (pathJoin cfg.tmp_dir cfg.refid ++ "/" ++ cfg.refid ++ "_a.mp4",
        cfg.destination_bucket_video_access, "video/mp4"),
       (pathJoin cfg.tmp_dir cfg.refid ++ "/poster.png",
        cfg.destination_bucket_poster, "image/x-png")] ∧
    (derivative_map cfg "video").length = 3 := by
  have ha : ("audio" : String) ≠ "video" := by decide
  refine ⟨?_, ?_, ?_⟩ <;> simp [derivative_map, ha]

/-- Witness for C9 at a concrete configuration. -/
theorem derivative_map_spec_witness :
    (derivative_map ⟨"R", "tmp", "s", "d", "dvm", "dva", "daa", "dp"⟩ "audio").length = 1 ∧
    (derivative_map ⟨"R", "tmp", "s", "d", "dvm", "dva", "daa", "dp"⟩ "video").length = 3 :=
  ⟨(derivative_map_spec ⟨"R", "tmp", "s", "d", "dvm", "dva", "daa", "dp"⟩).1,
   (derivative_map_spec ⟨"R", "tmp", "s", "d", "dvm", "dva", "daa", "dp"⟩).2.2⟩

/-- C8: compression produces the archive at the sibling path
`bag_dir ++ ".tar.gz"` with the directory name as the archive root entry
and removes the uncompressed directory; when archive writing fails the
operation raises and the directory is not removed. -/
theorem compress_bag_spec (fs : FS) (bag_dir : String) :
    (∃ r, compress_bag true fs bag_dir = .ok r ∧
      r.compressed_path = bag_dir ++ ".tar.gz" ∧
      r.arc_root = pathName bag_dir ∧
      (bag_dir ++ ".tar.gz") ∈ r.fs.files ∧
      bag_dir ∉ r.fs.dirs ∧
      ∀ f ∈ r.fs.files, pyStartswith f (bag_dir ++ "/") = false) ∧
    (∃ e fs2, compress_bag false fs bag_dir = .error (e, fs2) ∧
      fs2.dirs = fs.dirs ∧ fs2.files = (bag_dir ++ ".tar.gz") :: fs.files) := by
  constructor
  · refine ⟨_, rfl, rfl, rfl, ?_, ?_, ?_⟩
    · show (bag_dir ++ ".tar.gz") ∈
        (removeTree ⟨fs.dirs, (bag_dir ++ ".tar.gz") :: fs.files⟩ bag_dir).files
      simp only [removeTree]
      rw [List.mem_filter]
      exact ⟨List.mem_cons_self _ _, by simp [pyStartswith_tar_never bag_dir]⟩
    · show bag_dir ∉
        (removeTree ⟨fs.dirs, (bag_dir ++ ".tar.gz") :: fs.files⟩ bag_dir).dirs
      intro hmem
      simp only [removeTree] at hmem
      rw [List.mem_filter] at hmem
      simp at hmem
    · intro f hf
      simp only [removeTree] at hf
      rw [List.mem_filter] at hf
      simpa using hf.2
  · exact ⟨"tarfile write error", ⟨fs.dirs, (bag_dir ++ ".tar.gz") :: fs.files⟩, rfl, rfl, rfl⟩

/-- Witness for C8 at a concrete directory with one content file. -/
theorem compress_bag_spec_witness :
    ∃ r, compress_bag true ⟨["tmp/R"], ["tmp/R/f_a.mp3"]⟩ "tmp/R" = .ok r ∧
      r.compressed_path = "tmp/R" ++ ".tar.gz" ∧
      r.arc_root = pathName "tmp/R" ∧
      ("tmp/R" ++ ".tar.gz") ∈ r.fs.files ∧
      "tmp/R" ∉ r.fs.dirs ∧
      ∀ f ∈ r.fs.files, pyStartswith f ("tmp/R" ++ "/") = false :=
  (compress_bag_spec ⟨["tmp/R"], ["tmp/R/f_a.mp3"]⟩ "tmp/R").1

/-- C2 (counterexample): a single-date record with a bare-year begin does
NOT yield identical begin and end: begin "1950" normalizes to the pair
("1950-01-01", "1950-12-31"), whose components differ.  (The repository
test suite asserts exactly this output for its single-date fixture.) -/
theorem format_aspace_date_single_year_cex :
    format_aspace_date ⟨"single", "1950", none⟩ = .ok ("1950-01-01", "1950-12-31") ∧
    ("1950-01-01" : String) ≠ "1950-12-31" :=
  ⟨rfl, by decide⟩

/-- C2 (amended): a single-date record whose begin is a canonically
formatted full YYYY-MM-DD date yields identical begin and end values, both
equal to the begin; in particular date normalization is idempotent on
already-full single dates. -/
theorem format_aspace_date_single_full (d : AspaceDate) (p : Nat × Nat × Nat)
    (h1 : d.date_type = "single") (h2 : isoparse d.begin = some p)
    (h3 : strftimeYMD p = d.begin)
    (h4 : d.begin.length ≠ 4) (h5 : d.begin.length ≠ 7) :
    format_aspace_date d = .ok (d.begin, d.begin) := by
  simp [format_aspace_date, h1, h2, h3, h4, h5]

/-- Witness for the amended C2: the single-date record with begin
"1950-06-15" yields ("1950-06-15", "1950-06-15"). -/
theorem format_aspace_date_single_full_witness :
    format_aspace_date ⟨"single", "1950-06-15", none⟩ = .ok ("1950-06-15", "1950-06-15") :=
  format_aspace_date_single_full ⟨"single", "1950-06-15", none⟩ (1950, 6, 15)
    rfl (by decide) (by decide) (by decide) (by decide)

/-- C6: for begin/end records the begin bound normalizes to the first day
of its unit (as parsed) and the end bound to the last day of its unit
(December 31 for a bare year, the last calendar day of the month for a
year-month, itself for a full date); the year-only record (1950, 1969)
yields ("1950-01-01", "1969-12-31") and the month-only record
(1950-03, 1969-04) yields ("1950-03-01", "1969-04-30"). -/
theorem format_aspace_date_range_spec :
    (∀ (d : AspaceDate) (e : String) (pb pe : Nat × Nat × Nat),
      d.date_type ≠ "single" → d.endDate = some e →
      isoparse d.begin = some pb → isoparse e = some pe →
      format_aspace_date d = .ok (strftimeYMD pb,
        if e.length = 4 then strftimeYMD (pe.1, 12, 31)
        else if e.length = 7 then strftimeYMD (pe.1, pe.2.1, daysInMonth pe.1 pe.2.1)
        else e)) ∧
    format_aspace_date ⟨"inclusive", "1950", some "1969"⟩ =
      .ok ("1950-01-01", "1969-12-31") ∧
    format_aspace_date ⟨"inclusive", "1950-03", some "1969-04"⟩ =
      .ok ("1950-03-01", "1969-04-30") := by
  refine ⟨?_, rfl, rfl⟩
  intro d e pb pe hne hend hb he
  unfold format_aspace_date
  simp only [if_neg hne, hend, hb, he]
  by_cases h4 : e.length = 4
  · simp [h4, relativedeltaMonthDay, daysInMonth_dec]
  · by_cases h7 : e.length = 7
    · simp [h4, h7, relativedeltaDay, Nat.min_eq_right (daysInMonth_le_31 pe.1 pe.2.1)]
    · simp [h4, h7]

/-- Witness for C6: a full-date begin/end record passes through unchanged. -/
theorem format_aspace_date_range_spec_witness :
    format_aspace_date ⟨"inclusive", "1950-02-03", some "1969-04-05"⟩ =
      .ok ("1950-02-03", "1969-04-05") := by
  have h := format_aspace_date_range_spec.1 ⟨"inclusive", "1950-02-03", some "1969-04-05"⟩
    "1969-04-05" (1950, 2, 3) (1969, 4, 5) (by decide) rfl (by decide) (by decide)
  have h2 : (strftimeYMD (1950, 2, 3),
      if ("1969-04-05" : String).length = 4 then strftimeYMD ((1969, 4, 5).1, 12, 31)
      else if ("1969-04-05" : String).length = 7 then
        strftimeYMD ((1969, 4, 5).1, (1969, 4, 5).2.1,
          daysInMonth (1969, 4, 5).1 (1969, 4, 5).2.1)
      else "1969-04-05") = ("1950-02-03", "1969-04-05") := by decide
  rw [h, h2]

/-- C4: during bag assembly the code passes `bag_dir` (the working-directory
path), not the reference id, to `uri_from_refid`, so the find-by-id URL
queried interpolates `tmp/<refid>` instead of `<refid>`: the claim that the
lookup key is the reference id fails on the code. -/
theorem create_bag_query_refid_bug :
    create_bag_query "2" "tmp" "b90862f3baceaae3b7418c78f9d50d52" =
      "repositories/2/find_by_id/archival_objects?ref_id[]=tmp/b90862f3baceaae3b7418c78f9d50d52" ∧
    create_bag_query "2" "tmp" "b90862f3baceaae3b7418c78f9d50d52" ≠
      find_by_refid_url "2" "b90862f3baceaae3b7418c78f9d50d52" := by
  decide

/-- C3: staging downloads every prefix-matching source object into the
working directory and raises on an empty listing, but because the glob
pattern prepends the temp root twice, the returned file list is empty and
does not contain the materialized local paths. -/
theorem download_files_glob_spec :
    download_files ["R/f_ma.wav", "R/f_a.mp3"] ⟨[], []⟩ "tmp" "R" =
      .ok (⟨["tmp/R"], ["tmp/R/f_ma.wav", "tmp/R/f_a.mp3"]⟩, []) ∧
    ([] : List String) ≠ ["tmp/R/f_ma.wav", "tmp/R/f_a.mp3"] ∧
    download_files [] ⟨[], []⟩ "tmp" "R" = .error ("KeyError: Contents", ⟨["tmp/R"], []⟩) :=
  ⟨rfl, by decide, rfl⟩

/-- C1: when staging raises, cleanup removes the working directory and any
partial archive and the remote source stays untouched, but the failure
notification is NOT published: formatting it reads the never-assigned
format attribute and raises AttributeError, which escapes `run`, leaving
zero notifications.  (With the format attribute assigned, exactly one
FAILURE notification carrying the stringified error is published.) -/
theorem run_staging_failure_spec :
    run ⟨true, true, true, true, true, true⟩
        ⟨"R", "tmp", "source", "dest", "dvm", "dva", "daa", "dp"⟩
        ⟨⟨[], []⟩, ["other/file"], [], none⟩ =
      (some "AttributeError: Packager object has no attribute format",
       ⟨⟨[], []⟩, ["other/file"], [], none⟩) ∧
    deliver_failure_notification (some "audio") "R" "KeyError: Contents" [] =
      .ok [⟨"FAILURE", "audio", "R", some "KeyError: Contents"⟩] :=
  ⟨rfl, rfl⟩

end DigitizedAvPackaging
